import Mathlib

/-!
Verification development for the `unified_pay` payment orchestrator.

The Python sources are shallowly embedded as executable Lean definitions:

* Python `float` amounts, fees and scores are modelled as exact rationals
  (`ℚ`): every arithmetic operation the embedded code performs is addition,
  subtraction, comparison or multiplication by small constants.
* Python dicts keyed by strings (the processor's transaction store, the
  Streamlit `accounts` map) are modelled as association lists with
  insert-or-update and first-match lookup, mirroring dict semantics.
* Python exceptions become `Except` results; functions that signal failure
  through a boolean keep the boolean.
* In-place mutation of a shared dict/object (the transaction dict that is
  aliased between the caller and the processor's store) is rendered by
  returning the updated record together with a store in which the entry for
  its id has been replaced by that record — the net observable effect of the
  aliased mutation.
-/

namespace UnifiedPay

/-- Payment rails, from `src/unified_pay/models/payment_method.py`
(`class PaymentMethod`). -/
inductive PaymentMethod where
  | upi
  | card
  | bank_transfer
  | wallet
  | crypto
  | netbanking
  | cash
  deriving DecidableEq, Repr

/-- Rail descriptor, from `src/unified_pay/models/payment_method.py`
(`@dataclass PaymentOption`). -/
structure PaymentOption where
  method : PaymentMethod
  min_amount : ℚ := 0
  max_amount : Option ℚ := none
  domestic_only : Bool := true
  supports_international : Bool := false
  avg_fee_percent : ℚ := 0
  avg_settlement_minutes : ℚ := 0
  reliability_score : ℚ := 0
  supports_refund : Bool := true
  deriving DecidableEq, Repr

/-- Per-decision routing input, from
`src/unified_pay/services/routing_engine.py` (`@dataclass PaymentContext`). -/
structure PaymentContext where
  amount : ℚ
  currency : String := "INR"
  is_domestic : Bool := true
  need_instant : Bool := true
  user_pref_method : Option PaymentMethod := none
  merchant_pref_low_fees : Bool := true
  allow_crypto : Bool := false
  deriving DecidableEq, Repr

/-- The decision engine holds a static rail catalog
(`PaymentDecisionEngine.__init__`). -/
structure PaymentDecisionEngine where
  options : List PaymentOption
  deriving DecidableEq, Repr

/-- Eligibility filter `PaymentDecisionEngine._is_option_eligible`.  The Python body contains a
block `if ctx.is_domestic and not opt.domestic_only and not
opt.supports_international: pass`, which is a no-op and is therefore not
rendered. -/
def isOptionEligible (opt : PaymentOption) (ctx : PaymentContext) : Bool :=
  if ctx.amount < opt.min_amount then false
  else if (match opt.max_amount with
           | some m => decide (ctx.amount > m)
           | none => false) then false
  else if !ctx.is_domestic && !opt.supports_international then false
  else if opt.method = PaymentMethod.crypto && !ctx.allow_crypto then false
  else true

/-- Scoring function `PaymentDecisionEngine._score_option`: the deterministic weighted-sum
scoring formula.  The Python float constants are exact decimals. -/
def scoreOption (opt : PaymentOption) (ctx : PaymentContext) : ℚ :=
  let score0 : ℚ := 0
  let score1 :=
    if ctx.user_pref_method = some opt.method then score0 + 3 else score0
  let fee_penalty := opt.avg_fee_percent
  let score2 :=
    if ctx.merchant_pref_low_fees then score1 - fee_penalty * (12/10)
    else score1 - fee_penalty * (5/10)
  let speed_factor := max 1 opt.avg_settlement_minutes
  let score3 :=
    if ctx.need_instant then score2 - speed_factor * (5/100)
    else score2 - speed_factor * (2/100)
  let score4 := score3 + opt.reliability_score * 2
  let score5 :=
    if opt.method = PaymentMethod.upi ∧ ctx.amount > 100000 then score4 - 2
    else score4
  let score6 :=
    if (opt.method = PaymentMethod.bank_transfer ∨
        opt.method = PaymentMethod.netbanking) ∧ ctx.amount ≥ 50000 then
      score5 + (15/10)
    else score5
  score6

/-- Python's `max(xs, key=f)`: the first element attaining the maximal key.
`none` exactly when the list is empty. -/
def argmaxByKey (f : PaymentOption → ℚ) : List PaymentOption → Option PaymentOption
  | [] => none
  | o :: rest =>
    some (rest.foldl (fun best x => if f x > f best then x else best) o)

/-- Recommendation `PaymentDecisionEngine.recommend`: filter by eligibility; if no rail is
eligible fall back to `BANK_TRANSFER`; otherwise return the first rail with
the maximal score. -/
def recommend (engine : PaymentDecisionEngine) (ctx : PaymentContext) :
    PaymentMethod :=
  let eligible := engine.options.filter (fun o => isOptionEligible o ctx)
  match argmaxByKey (fun o => scoreOption o ctx) eligible with
  | none => PaymentMethod.bank_transfer
  | some best => best.method

/-- The default rail catalog from
`src/unified_pay/services/routing_engine.py` (`default_decision_engine`). -/
def default_decision_engine : PaymentDecisionEngine :=
  { options :=
      [ { method := PaymentMethod.upi
          min_amount := 1
          max_amount := some 200000
          domestic_only := true
          supports_international := false
          avg_fee_percent := 0
          avg_settlement_minutes := 1
          reliability_score := (95/100) }
      , { method := PaymentMethod.card
          min_amount := 10
          max_amount := none
          domestic_only := false
          supports_international := true
          avg_fee_percent := 2
          avg_settlement_minutes := 1
          reliability_score := (9/10) }
      , { method := PaymentMethod.bank_transfer
          min_amount := 100
          max_amount := none
          domestic_only := true
          supports_international := false
          avg_fee_percent := (25/100)
          avg_settlement_minutes := 30
          reliability_score := (98/100) }
      , { method := PaymentMethod.netbanking
          min_amount := 100
          max_amount := none
          domestic_only := true
          supports_international := false
          avg_fee_percent := 1
          avg_settlement_minutes := 5
          reliability_score := (92/100) }
      , { method := PaymentMethod.wallet
          min_amount := 1
          max_amount := some 50000
          domestic_only := true
          supports_international := false
          avg_fee_percent := (15/10)
          avg_settlement_minutes := 1
          reliability_score := (85/100) }
      , { method := PaymentMethod.crypto
          min_amount := 100
          max_amount := none
          domestic_only := false
          supports_international := true
          avg_fee_percent := (5/10)
          avg_settlement_minutes := 30
          reliability_score := (7/10) } ] }

/-- Transaction record: the `TransactionDict` built by
`PaymentProcessor.initiate_payment`, plus the optional `failure_reason` key
attached by `auto_process_transaction`.  The free-form `metadata` dict is not
modelled; no claim mentions it.  Statuses are the literal strings the code
writes (`"PENDING"`, `"COMPLETED"`, `"FAILED"`). -/
structure Transaction where
  transaction_id : String
  from_account_id : String
  to_account_id : String
  amount : ℚ
  currency : String
  method : PaymentMethod
  status : String
  failure_reason : Option String := none
  deriving DecidableEq, Repr

/-- In-memory transaction store `PaymentProcessor._transactions`, a Python
dict from transaction id to transaction dict. -/
abbrev TxStore := List (String × Transaction)

/-- Dict lookup `d.get(k)`: first entry with the given key. -/
def storeGet : TxStore → String → Option Transaction
  | [], _ => none
  | p :: t, k => if p.1 == k then some p.2 else storeGet t k

/-- Dict assignment `d[k] = v`: replace in place when the key exists,
otherwise append (dicts preserve insertion order and hold each key once). -/
def storeInsert : TxStore → String → Transaction → TxStore
  | [], k, v => [(k, v)]
  | p :: t, k, v => if p.1 == k then (k, v) :: t else p :: storeInsert t k v

/-- All transaction records held by a store. -/
def txValues (s : TxStore) : List Transaction := s.map (fun p => p.2)

/-- The Streamlit `accounts` dict, account id to the mutable balance of the
`Account` object stored there. -/
abbrev Accounts := List (String × ℚ)

/-- Dict lookup `accounts.get(k)` followed by reading `.balance`. -/
def accGet : Accounts → String → Option ℚ
  | [], _ => none
  | p :: t, k => if p.1 == k then some p.2 else accGet t k

/-- In-place balance mutation `accounts[k].balance += d` (a no-op when the
key is absent, which the callers below never rely on). -/
def accAdd : Accounts → String → ℚ → Accounts
  | [], _, _ => []
  | p :: t, k, d => (if p.1 == k then (p.1, p.2 + d) else p) :: accAdd t k d

/-- Method `Account.withdraw` from `src/unified_pay/models/account.py`,
as a function of the amount and the current balance: returns the Python
return value and the balance after the call. -/
def Account.withdraw (amount balance : ℚ) : Bool × ℚ :=
  if 0 < amount ∧ amount ≤ balance then (true, balance - amount)
  else (false, balance)

/-- Method `Account.deposit`, same conventions as `Account.withdraw`. -/
def Account.deposit (amount balance : ℚ) : Bool × ℚ :=
  if 0 < amount then (true, balance + amount)
  else (false, balance)

/-- Configuration dataclass `PaymentProcessorConfig` with its defaults. -/
structure PaymentProcessorConfig where
  default_currency : String := "INR"
  default_is_domestic : Bool := true
  allow_crypto : Bool := false
  merchant_pref_low_fees : Bool := true
  deriving DecidableEq, Repr

/-- Typed rendering of the `ValueError`s raised by
`PaymentProcessor.initiate_payment` and `choose_payment_method`, keyed by
their messages.  The `getattr` guards for a missing `account_id` attribute
cannot fire in this embedding because account ids are passed as values. -/
inductive InitError where
  | invalidAmount
  | sameAccount
  | methodRequired
  deriving DecidableEq, Repr

/-- Method `PaymentProcessor.choose_payment_method`: builds a
`PaymentContext` from the arguments and the config defaults and runs the
decision engine.  Raises (`invalidAmount`) when `amount <= 0`. -/
def choosePaymentMethod (engine : PaymentDecisionEngine)
    (cfg : PaymentProcessorConfig) (amount : ℚ) (currency : Option String)
    (is_domestic : Option Bool) (need_instant : Bool)
    (user_pref : Option PaymentMethod) (allow_crypto : Option Bool)
    (merchant_pref_low_fees : Option Bool) : Except InitError PaymentMethod :=
  if amount ≤ 0 then Except.error InitError.invalidAmount
  else
    Except.ok (recommend engine
      { amount := amount
        currency := currency.getD cfg.default_currency
        is_domestic := is_domestic.getD cfg.default_is_domestic
        need_instant := need_instant
        user_pref_method := user_pref
        allow_crypto := allow_crypto.getD cfg.allow_crypto
        merchant_pref_low_fees :=
          merchant_pref_low_fees.getD cfg.merchant_pref_low_fees })

/-- Method `PaymentProcessor.initiate_payment`.  The fresh id produced by
`uuid.uuid4().hex` is passed in as `tx_id`.  Validation order follows the
source: amount, then same-account, then method resolution; on success the
record (status `"PENDING"`) is stored in `_transactions` and returned. -/
def initiatePayment (engine : PaymentDecisionEngine)
    (cfg : PaymentProcessorConfig) (from_account to_account : String)
    (amount : ℚ) (currency : Option String) (method : Option PaymentMethod)
    (auto_pick_method : Bool) (need_instant : Bool)
    (user_pref : Option PaymentMethod) (is_domestic : Option Bool)
    (allow_crypto : Option Bool) (merchant_pref_low_fees : Option Bool)
    (tx_id : String) (store : TxStore) :
    Except InitError (Transaction × TxStore) :=
  if amount ≤ 0 then Except.error InitError.invalidAmount
  else if from_account = to_account then Except.error InitError.sameAccount
  else
    match
      (if auto_pick_method && method.isNone then
        choosePaymentMethod engine cfg amount currency is_domestic
          need_instant user_pref allow_crypto merchant_pref_low_fees
      else
        match method with
        | none => Except.error InitError.methodRequired
        | some m => Except.ok m) with
    | Except.error e => Except.error e
    | Except.ok chosen_method =>
      let tx : Transaction :=
        { transaction_id := tx_id
          from_account_id := from_account
          to_account_id := to_account
          amount := amount
          currency := currency.getD cfg.default_currency
          method := chosen_method
          status := "PENDING"
          failure_reason := none }
      Except.ok (tx, storeInsert store tx_id tx)

/-- Argument of `PaymentProcessor.confirm_payment`: a transaction id string
or a transaction dict. -/
inductive TxRef where
  | byId (tx_id : String)
  | byDict (tx : Transaction)
  deriving DecidableEq, Repr

/-- Method `PaymentProcessor.confirm_payment`.  Returns the Python return
value, the store after the call, and the transaction object that was
mutated (`none` when the id lookup failed).  In the dict branch Python first
syncs `self._transactions[tx_id] = tx_obj` and then sets the status on the
shared object, so the store ends up holding the updated record; a dict whose
`transaction_id` is falsy (the empty string) is not synced. -/
def confirmPayment (store : TxStore) (tx : TxRef) (mark_failed : Bool) :
    Bool × TxStore × Option Transaction :=
  match tx with
  | TxRef.byId tx_id =>
    match storeGet store tx_id with
    | none => (false, store, none)
    | some tx_obj =>
      let updated := { tx_obj with
        status := if mark_failed then "FAILED" else "COMPLETED" }
      (true, storeInsert store tx_id updated, some updated)
  | TxRef.byDict tx_obj =>
    let updated := { tx_obj with
      status := if mark_failed then "FAILED" else "COMPLETED" }
    let store1 :=
      if tx_obj.transaction_id == "" then store
      else storeInsert store tx_obj.transaction_id updated
    (true, store1, some updated)

/-- Failure reasons collected by `auto_process_transaction`
(`streamlit_app.py`), in source order: missing account, insufficient sender
balance, identical sender and receiver. -/
def settlementReasons (tx : Transaction) (accounts : Accounts) : List String :=
  let from_acc := accGet accounts tx.from_account_id
  let to_acc := accGet accounts tx.to_account_id
  let amount_in_inr := tx.amount
  (if from_acc.isNone || to_acc.isNone then
    ["One of the accounts no longer exists."]
   else [])
  ++ (match from_acc with
      | some b =>
        if b < amount_in_inr then ["Insufficient balance in source account."]
        else []
      | none => [])
  ++ (if tx.from_account_id = tx.to_account_id then
        ["Sender and receiver accounts are the same."]
      else [])

/-- Result of one `auto_process_transaction` call: the transaction object
after the aliased mutations, the processor store, the accounts map, and the
returned pair (status string, reason text). -/
structure SettleResult where
  tx : Transaction
  store : TxStore
  accounts : Accounts
  status : String
  reason : String
  deriving Repr

/-- Function `auto_process_transaction` from `streamlit_app.py`: the
settlement step.  On any collected reason it marks the transaction `FAILED`
with the joined reason text and mutates no balance; otherwise it moves the
amount between the two balances and marks the transaction `COMPLETED`,
popping any stale `failure_reason`.  After `confirm_payment` the caller
mutates the same aliased dict (`tx["status"]`, `tx["failure_reason"]`), so
the store entry for the transaction id holds the final record. -/
def autoProcessTransaction (tx : Transaction) (store : TxStore)
    (accounts : Accounts) : SettleResult :=
  let from_acc := accGet accounts tx.from_account_id
  let to_acc := accGet accounts tx.to_account_id
  let amount_in_inr := tx.amount
  let reasons := settlementReasons tx accounts
  if reasons ≠ [] then
    let reason_text := String.intercalate "; " reasons
    let store1 := (confirmPayment store (TxRef.byDict tx) true).2.1
    let tx1 := { tx with status := "FAILED", failure_reason := some reason_text }
    let store2 :=
      if tx.transaction_id == "" then store1
      else storeInsert store1 tx.transaction_id tx1
    { tx := tx1, store := store2, accounts := accounts,
      status := "FAILED", reason := reason_text }
  else
    let accounts1 :=
      match from_acc, to_acc with
      | some _, some _ =>
        accAdd (accAdd accounts tx.from_account_id (-amount_in_inr))
          tx.to_account_id amount_in_inr
      | _, _ => accounts
    let store1 := (confirmPayment store (TxRef.byDict tx) false).2.1
    let tx1 := { tx with status := "COMPLETED", failure_reason := none }
    let store2 :=
      if tx.transaction_id == "" then store1
      else storeInsert store1 tx.transaction_id tx1
    { tx := tx1, store := store2, accounts := accounts1,
      status := "COMPLETED", reason := "" }

/-- Joint state of the Streamlit session: the per-user account balances and
the processor's transaction store. -/
structure World where
  accounts : Accounts
  txs : TxStore
  deriving DecidableEq, Repr

/-- Operations the Streamlit payment page performs against that state:
initiating a payment (which stores a record) and auto-settling a stored
transaction. -/
inductive Op where
  | initiate (from_account to_account : String) (amount : ℚ)
      (currency : Option String) (method : Option PaymentMethod)
      (auto_pick_method : Bool) (tx_id : String)
  | settle (tx_id : String)
  deriving DecidableEq, Repr

/-- One lifecycle step.  A failed initiation stores nothing; settling an
unknown id does nothing; otherwise the stored record is processed by
`autoProcessTransaction` and the session state updated. -/
def stepOp (engine : PaymentDecisionEngine) (cfg : PaymentProcessorConfig)
    (w : World) : Op → World
  | Op.initiate f t amount currency method auto tx_id =>
    match initiatePayment engine cfg f t amount currency method auto
        true none none none none tx_id w.txs with
    | Except.error _ => w
    | Except.ok (_, store1) => { w with txs := store1 }
  | Op.settle tx_id =>
    match storeGet w.txs tx_id with
    | none => w
    | some tx =>
      let r := autoProcessTransaction tx w.txs w.accounts
      { accounts := r.accounts, txs := r.store }

/-- Runs a sequence of lifecycle operations from an initial account map and
an empty transaction store. -/
def run (engine : PaymentDecisionEngine) (cfg : PaymentProcessorConfig)
    (accounts0 : Accounts) (ops : List Op) : World :=
  ops.foldl (stepOp engine cfg) { accounts := accounts0, txs := [] }

/-- Quote returned by `FXService._fetch_rates`: base currency, date, and the
rate table. -/
structure FXQuote where
  base : String
  date : String
  rates : List (String × ℚ)
  deriving DecidableEq, Repr

/-- Failures of `FXService.get_rate`: `rateUnavailable` is the
`RuntimeError` raised when both HTTP endpoints fail (the spec's
`RateUnavailable`); `unsupportedCurrency` is the `ValueError` for a rate
table that lacks the target code. -/
inductive FXError where
  | rateUnavailable (message : String)
  | unsupportedCurrency (to_code from_code : String)
  deriving DecidableEq, Repr

/-- Lowercasing `str.lower()` as applied to currency codes, written over the
character list so it evaluates (behaves as `String.toLower`). -/
def lowerString (s : String) : String := String.mk (s.data.map Char.toLower)

/-- Method `FXService.get_rate`.  The network fetch `_fetch_rates` is
external (two HTTP endpoints tried in order); its outcome is passed in as
`fetched`, with `Except.error` when both endpoints failed.  Equal codes
short-circuit to rate `1.0` without consulting the fetch. -/
def getRate (from_code to_code : String) (fetched : Except String FXQuote) :
    Except FXError ℚ :=
  let f := lowerString from_code
  let t := lowerString to_code
  if f = t then Except.ok 1
  else
    match fetched with
    | Except.error e => Except.error (FXError.rateUnavailable e)
    | Except.ok quote =>
      match quote.rates.find? (fun p => p.1 == t) with
      | none => Except.error (FXError.unsupportedCurrency t f)
      | some p => Except.ok p.2

/-- Method `FXService.convert`: `amount * rate`. -/
def convert (amount : ℚ) (from_code to_code : String)
    (fetched : Except String FXQuote) : Except FXError ℚ :=
  (getRate from_code to_code fetched).map (fun rate => amount * rate)

/-- Outcomes of the `Initiate` button handler in `page_payments`
(`streamlit_app.py`): an FX conversion failure aborts before
`initiate_payment` is reached; otherwise an `initiate_payment` error is
surfaced. -/
inductive PageError where
  | fxFailed (e : FXError)
  | initFailed (e : InitError)
  deriving DecidableEq, Repr

/-- Slice of `page_payments` that runs on `Initiate`: the internal INR
amount is computed first (via `FXService.convert` when the source currency
is not `"INR"`); an FX failure returns without creating any transaction;
otherwise the high-value Express override may force the crypto rail, and
`initiate_payment` is called with the converted amount. -/
def pageInitiatePayment (engine : PaymentDecisionEngine)
    (cfg : PaymentProcessorConfig) (from_ccy : String) (amount_from : ℚ)
    (fetched : Except String FXQuote) (speed_mode : String) (use_ai : Bool)
    (manual_method : Option PaymentMethod) (need_instant : Bool)
    (from_id to_id : String) (tx_id : String) (store : TxStore) :
    Except PageError (Transaction × TxStore) :=
  let amount_in_inr : Except FXError ℚ :=
    if from_ccy = "INR" then Except.ok amount_from
    else convert amount_from from_ccy "INR" fetched
  match amount_in_inr with
  | Except.error e => Except.error (PageError.fxFailed e)
  | Except.ok amt =>
    let chosen0 : Option PaymentMethod := if use_ai then none else manual_method
    let chosen_method :=
      if amt ≥ 100000 ∧ speed_mode = "Express" then some PaymentMethod.crypto
      else chosen0
    match initiatePayment engine cfg from_id to_id amt none chosen_method
        use_ai need_instant none none none none tx_id store with
    | Except.error e => Except.error (PageError.initFailed e)
    | Except.ok r => Except.ok r

/-- Settings of a processor constructed as `PaymentProcessor()`, as the
Streamlit session does. -/
def defaultProcessorConfig : PaymentProcessorConfig := {}

/-- Status/reason shape of a stored transaction record: the status is one of
the three strings the code writes, and a failure reason is present only on a
`FAILED` record. -/
def txStatusInvariant (tx : Transaction) : Bool :=
  (tx.status == "PENDING" || tx.status == "COMPLETED" ||
    tx.status == "FAILED") &&
  (tx.failure_reason.isNone || tx.status == "FAILED")

theorem accGet_accAdd_self (A : Accounts) (k : String) (d : ℚ) :
    accGet (accAdd A k d) k = (accGet A k).map (fun b => b + d) := by
  induction A with
  | nil => rfl
  | cons p t ih =>
    by_cases hp : p.1 == k
    · simp [accGet, accAdd, hp]
    · simp [accGet, accAdd, hp, ih]

theorem accGet_accAdd_ne (A : Accounts) (k k2 : String) (d : ℚ)
    (h : k2 ≠ k) : accGet (accAdd A k d) k2 = accGet A k2 := by
  induction A with
  | nil => rfl
  | cons p t ih =>
    by_cases hp : p.1 == k
    · have hpk : p.1 = k := eq_of_beq hp
      have hk2 : (p.1 == k2) = false := by
        subst hpk; exact beq_eq_false_iff_ne.mpr (fun hh => h hh.symm)
      simp [accGet, accAdd, hp, hk2, ih]
    · by_cases hq : p.1 == k2
      · simp [accGet, accAdd, hp, hq]
      · simp [accGet, accAdd, hp, hq, ih]

theorem storeGet_storeInsert_self (s : TxStore) (k : String)
    (v : Transaction) : storeGet (storeInsert s k v) k = some v := by
  induction s with
  | nil => simp [storeGet, storeInsert]
  | cons p t ih =>
    by_cases hp : p.1 == k
    · simp [storeGet, storeInsert, hp]
    · simp [storeGet, storeInsert, hp, ih]

theorem txValues_storeInsert_mem (s : TxStore) (k : String)
    (v tx : Transaction) (h : tx ∈ txValues (storeInsert s k v)) :
    tx = v ∨ tx ∈ txValues s := by
  induction s with
  | nil =>
    simp [txValues, storeInsert] at h
    exact Or.inl h
  | cons p t ih =>
    by_cases hp : p.1 == k
    · simp [txValues, storeInsert, hp] at h
      rcases h with h | h
      · exact Or.inl h
      · exact Or.inr (by simp [txValues]; exact Or.inr h)
    · simp [txValues, storeInsert, hp] at h
      rcases h with h | h
      · exact Or.inr (by simp [txValues]; exact Or.inl h)
      · rcases ih (by simp [txValues]; exact h) with h2 | h2
        · exact Or.inl h2
        · exact Or.inr (by simp [txValues] at h2 ⊢; exact Or.inr h2)

theorem storeInsert_storeInsert_same (s : TxStore) (k : String)
    (u v : Transaction) :
    storeInsert (storeInsert s k u) k v = storeInsert s k v := by
  induction s with
  | nil => simp [storeInsert]
  | cons p t ih =>
    by_cases hp : p.1 == k
    · simp [storeInsert, hp]
    · simp [storeInsert, hp, ih]

theorem settlementReasons_eq_nil (tx : Transaction) (accounts : Accounts)
    (bf bt : ℚ)
    (hf : accGet accounts tx.from_account_id = some bf)
    (ht : accGet accounts tx.to_account_id = some bt)
    (hne : tx.from_account_id ≠ tx.to_account_id)
    (hsuff : tx.amount ≤ bf) :
    settlementReasons tx accounts = [] := by
  simp [settlementReasons, hf, ht, hne, not_lt.mpr hsuff]

theorem autoProcess_success_spec (tx : Transaction) (store : TxStore)
    (accounts : Accounts) (bf bt : ℚ)
    (hf : accGet accounts tx.from_account_id = some bf)
    (ht : accGet accounts tx.to_account_id = some bt)
    (hne : tx.from_account_id ≠ tx.to_account_id)
    (hsuff : tx.amount ≤ bf) :
    (autoProcessTransaction tx store accounts).status = "COMPLETED" ∧
    (autoProcessTransaction tx store accounts).tx =
      { tx with
          status := "COMPLETED",
          failure_reason := none } ∧
    (autoProcessTransaction tx store accounts).accounts =
      accAdd (accAdd accounts tx.from_account_id (-tx.amount))
        tx.to_account_id tx.amount ∧
    (tx.transaction_id ≠ "" →
      (autoProcessTransaction tx store accounts).store =
        storeInsert store tx.transaction_id
          { tx with
              status := "COMPLETED",
              failure_reason := none }) := by
  have hnil := settlementReasons_eq_nil tx accounts bf bt hf ht hne hsuff
  refine ⟨?_, ?_, ?_, ?_⟩
  · simp [autoProcessTransaction, hnil]
  · simp [autoProcessTransaction, hnil]
  · simp [autoProcessTransaction, hnil, hf, ht]
  · intro hid
    have hb : (tx.transaction_id == "") = false := beq_eq_false_iff_ne.mpr hid
    simp [autoProcessTransaction, hnil, confirmPayment, hb,
      storeInsert_storeInsert_same]

theorem autoProcess_fail_spec (tx : Transaction) (store : TxStore)
    (accounts : Accounts)
    (h : settlementReasons tx accounts ≠ []) :
    (autoProcessTransaction tx store accounts).status = "FAILED" ∧
    (autoProcessTransaction tx store accounts).tx =
      { tx with
          status := "FAILED",
          failure_reason :=
            some (String.intercalate "; " (settlementReasons tx accounts)) } ∧
    (autoProcessTransaction tx store accounts).accounts = accounts ∧
    (autoProcessTransaction tx store accounts).reason =
      String.intercalate "; " (settlementReasons tx accounts) := by
  refine ⟨?_, ?_, ?_, ?_⟩ <;> simp [autoProcessTransaction, h]

theorem initiatePayment_ok_shape (engine : PaymentDecisionEngine)
    (cfg : PaymentProcessorConfig) (f t : String) (amount : ℚ)
    (currency : Option String) (method : Option PaymentMethod)
    (auto ni : Bool) (up : Option PaymentMethod) (idom : Option Bool)
    (ac : Option Bool) (mp : Option Bool) (tx_id : String) (store : TxStore)
    (tx : Transaction) (store1 : TxStore)
    (h : initiatePayment engine cfg f t amount currency method auto ni up
      idom ac mp tx_id store = Except.ok (tx, store1)) :
    tx.status = "PENDING" ∧ tx.failure_reason = none ∧
    store1 = storeInsert store tx_id tx := by
  unfold initiatePayment at h
  split at h
  · exact absurd h (by simp)
  · split at h
    · exact absurd h (by simp)
    · split at h
      · exact absurd h (by simp)
      · simp only [Except.ok.injEq, Prod.mk.injEq] at h
        obtain ⟨h1, h2⟩ := h
        subst h1
        subst h2
        exact ⟨rfl, rfl, rfl⟩

theorem autoProcess_tx_shape (tx : Transaction) (store : TxStore)
    (accounts : Accounts) :
    txStatusInvariant (autoProcessTransaction tx store accounts).tx = true := by
  by_cases hr : settlementReasons tx accounts ≠ [] <;>
    simp [autoProcessTransaction, hr, txStatusInvariant]

theorem autoProcess_store_eq (tx : Transaction) (store : TxStore)
    (accounts : Accounts) :
    (autoProcessTransaction tx store accounts).store = store ∨
    (autoProcessTransaction tx store accounts).store =
      storeInsert store tx.transaction_id
        (autoProcessTransaction tx store accounts).tx := by
  by_cases hid : (tx.transaction_id == "") = true
  · left
    by_cases hr : settlementReasons tx accounts ≠ [] <;>
      simp [autoProcessTransaction, hr, confirmPayment, hid]
  · right
    have hid2 : (tx.transaction_id == "") = false := by simpa using hid
    by_cases hr : settlementReasons tx accounts ≠ [] <;>
      simp [autoProcessTransaction, hr, confirmPayment, hid2,
        storeInsert_storeInsert_same]

theorem autoProcess_store_values (tx : Transaction) (store : TxStore)
    (accounts : Accounts) (tx2 : Transaction)
    (h : tx2 ∈ txValues (autoProcessTransaction tx store accounts).store) :
    tx2 ∈ txValues store ∨ txStatusInvariant tx2 = true := by
  rcases autoProcess_store_eq tx store accounts with h2 | h2
  · rw [h2] at h
    exact Or.inl h
  · rw [h2] at h
    rcases txValues_storeInsert_mem _ _ _ _ h with h3 | h3
    · subst h3
      exact Or.inr (autoProcess_tx_shape tx store accounts)
    · exact Or.inl h3

theorem stepOp_preserves_invariant (engine : PaymentDecisionEngine)
    (cfg : PaymentProcessorConfig) (w : World) (op : Op)
    (hw : ∀ tx ∈ txValues w.txs, txStatusInvariant tx = true) :
    ∀ tx ∈ txValues (stepOp engine cfg w op).txs,
      txStatusInvariant tx = true := by
  intro tx htx
  cases op with
  | initiate f t amount currency method auto tx_id =>
    simp only [stepOp] at htx
    split at htx
    · exact hw tx htx
    · rename_i txn store1 heq
      obtain ⟨h1, h2, h3⟩ :=
        initiatePayment_ok_shape engine cfg f t amount currency method auto
          true none none none none tx_id w.txs txn store1 heq
      rw [h3] at htx
      rcases txValues_storeInsert_mem _ _ _ _ htx with h4 | h4
      · subst h4
        simp [txStatusInvariant, h1, h2]
      · exact hw tx h4
  | settle tx_id =>
    simp only [stepOp] at htx
    split at htx
    · exact hw tx htx
    · rcases autoProcess_store_values _ _ _ _ htx with h2 | h2
      · exact hw tx h2
      · exact h2

theorem run_preserves_invariant (engine : PaymentDecisionEngine)
    (cfg : PaymentProcessorConfig) (accounts0 : Accounts) (ops : List Op) :
    ∀ tx ∈ txValues (run engine cfg accounts0 ops).txs,
      txStatusInvariant tx = true := by
  have base : ∀ tx ∈ txValues (([] : TxStore)), txStatusInvariant tx = true := by
    simp [txValues]
  suffices hgen : ∀ (ops : List Op) (w : World),
      (∀ tx ∈ txValues w.txs, txStatusInvariant tx = true) →
      ∀ tx ∈ txValues (ops.foldl (stepOp engine cfg) w).txs,
        txStatusInvariant tx = true by
    exact hgen ops { accounts := accounts0, txs := [] } base
  intro ops
  induction ops with
  | nil => intro w hw; simpa using hw
  | cons op rest ih =>
    intro w hw
    simp only [List.foldl_cons]
    exact ih _ (stepOp_preserves_invariant engine cfg w op hw)

/-- C1: for accounts `A`, `B` with balances `a`, `b` (`A ≠ B`), initiating a
payment of `x` in the reference currency with `0 < x ≤ a` and then settling
it leaves `A` at `a - x`, `B` at `b + x`, marks the stored transaction
`COMPLETED`, and conserves the total `a + b`. -/
theorem initiate_then_settle_transfers_balances
    (A B tx_id : String) (a b x : ℚ) (accounts : Accounts)
    (hAB : A ≠ B) (hx : 0 < x) (hxa : x ≤ a)
    (ha : accGet accounts A = some a) (hb : accGet accounts B = some b)
    (hid : tx_id ≠ "") :
    accGet (run default_decision_engine defaultProcessorConfig accounts
        [Op.initiate A B x none none true tx_id, Op.settle tx_id]).accounts A
      = some (a - x) ∧
    accGet (run default_decision_engine defaultProcessorConfig accounts
        [Op.initiate A B x none none true tx_id, Op.settle tx_id]).accounts B
      = some (b + x) ∧
    Option.map Transaction.status
      (storeGet (run default_decision_engine defaultProcessorConfig accounts
        [Op.initiate A B x none none true tx_id, Op.settle tx_id]).txs tx_id)
      = some "COMPLETED" ∧
    (a - x) + (b + x) = a + b := by
  have hx0 : ¬ x ≤ 0 := not_le.mpr hx
  have hstep1 :
      stepOp default_decision_engine defaultProcessorConfig
        { accounts := accounts, txs := ([] : TxStore) }
        (Op.initiate A B x none none true tx_id) =
      { accounts := accounts,
        txs := [(tx_id,
          { transaction_id := tx_id,
            from_account_id := A,
            to_account_id := B,
            amount := x,
            currency := "INR",
            method := recommend default_decision_engine
              { amount := x,
                currency := "INR",
                is_domestic := true,
                need_instant := true,
                user_pref_method := none,
                merchant_pref_low_fees := true,
                allow_crypto := false },
            status := "PENDING",
            failure_reason := none })] } := by
    simp [stepOp, initiatePayment, choosePaymentMethod, hx0, hAB,
      defaultProcessorConfig, storeInsert]
  obtain ⟨hs, htx, hacc, hst⟩ :=
    autoProcess_success_spec
      { transaction_id := tx_id,
        from_account_id := A,
        to_account_id := B,
        amount := x,
        currency := "INR",
        method := recommend default_decision_engine
          { amount := x,
            currency := "INR",
            is_domestic := true,
            need_instant := true,
            user_pref_method := none,
            merchant_pref_low_fees := true,
            allow_crypto := false },
        status := "PENDING",
        failure_reason := none }
      [(tx_id,
        { transaction_id := tx_id,
          from_account_id := A,
          to_account_id := B,
          amount := x,
          currency := "INR",
          method := recommend default_decision_engine
            { amount := x,
              currency := "INR",
              is_domestic := true,
              need_instant := true,
              user_pref_method := none,
              merchant_pref_low_fees := true,
              allow_crypto := false },
          status := "PENDING",
          failure_reason := none })]
      accounts a b ha hb hAB hxa
  have hrun :
      run default_decision_engine defaultProcessorConfig accounts
        [Op.initiate A B x none none true tx_id, Op.settle tx_id] =
      { accounts := accAdd (accAdd accounts A (-x)) B x,
        txs := [(tx_id,
          { transaction_id := tx_id,
            from_account_id := A,
            to_account_id := B,
            amount := x,
            currency := "INR",
            method := recommend default_decision_engine
              { amount := x,
                currency := "INR",
                is_domestic := true,
                need_instant := true,
                user_pref_method := none,
                merchant_pref_low_fees := true,
                allow_crypto := false },
            status := "COMPLETED",
            failure_reason := none })] } := by
    show stepOp default_decision_engine defaultProcessorConfig
        (stepOp default_decision_engine defaultProcessorConfig
          { accounts := accounts, txs := ([] : TxStore) }
          (Op.initiate A B x none none true tx_id))
        (Op.settle tx_id) = _
    rw [hstep1]
    simp only [stepOp, storeGet, beq_self_eq_true, if_pos]
    rw [World.mk.injEq]
    constructor
    · exact hacc
    · rw [hst hid]
      simp [storeInsert]
  rw [hrun]
  refine ⟨?_, ?_, ?_, by ring⟩
  · rw [accGet_accAdd_ne _ B A x hAB, accGet_accAdd_self, ha]
    simp [sub_eq_add_neg]
  · rw [accGet_accAdd_self, accGet_accAdd_ne _ A B (-x) (Ne.symm hAB), hb]
    rfl
  · simp [storeGet]


theorem initiate_then_settle_transfers_balances_witness :
    (("A" : String) ≠ "B") ∧ ((0:ℚ) < 100) ∧ ((100:ℚ) ≤ 1000) ∧
    accGet [("A", (1000:ℚ)), ("B", 500)] "A" = some 1000 ∧
    accGet [("A", (1000:ℚ)), ("B", 500)] "B" = some 500 ∧
    (("t1" : String) ≠ "") ∧
    (accGet (run default_decision_engine defaultProcessorConfig
        [("A", (1000:ℚ)), ("B", 500)]
        [Op.initiate "A" "B" 100 none none true "t1", Op.settle "t1"]).accounts
        "A" = some (1000 - 100) ∧
     accGet (run default_decision_engine defaultProcessorConfig
        [("A", (1000:ℚ)), ("B", 500)]
        [Op.initiate "A" "B" 100 none none true "t1", Op.settle "t1"]).accounts
        "B" = some (500 + 100) ∧
     Option.map Transaction.status
       (storeGet (run default_decision_engine defaultProcessorConfig
         [("A", (1000:ℚ)), ("B", 500)]
         [Op.initiate "A" "B" 100 none none true "t1", Op.settle "t1"]).txs
         "t1") = some "COMPLETED" ∧
     ((1000:ℚ) - 100) + (500 + 100) = 1000 + 500) :=
  ⟨by decide, by decide, by decide, by decide, by decide, by decide,
   initiate_then_settle_transfers_balances "A" "B" "t1" 1000 500 100
     [("A", (1000:ℚ)), ("B", 500)] (by decide) (by decide) (by decide)
     (by decide) (by decide) (by decide)⟩

/-- C2 (counterexample): settling the same stored transaction twice does not
fail — after the first settlement A holds 140, and the second settlement
debits again, leaving A at 80 and B at 170, with the stored status written
to `COMPLETED` a second time instead of an `AlreadyFinalized` failure. -/
theorem second_settlement_mutates_twice_cex :
    accGet (run default_decision_engine defaultProcessorConfig
        [("A", (200:ℚ)), ("B", 50)]
        [Op.initiate "A" "B" 60 none (some PaymentMethod.upi) false "t1",
         Op.settle "t1"]).accounts "A" = some 140 ∧
    accGet (run default_decision_engine defaultProcessorConfig
        [("A", (200:ℚ)), ("B", 50)]
        [Op.initiate "A" "B" 60 none (some PaymentMethod.upi) false "t1",
         Op.settle "t1", Op.settle "t1"]).accounts "A" = some 80 ∧
    accGet (run default_decision_engine defaultProcessorConfig
        [("A", (200:ℚ)), ("B", 50)]
        [Op.initiate "A" "B" 60 none (some PaymentMethod.upi) false "t1",
         Op.settle "t1", Op.settle "t1"]).accounts "B" = some 170 ∧
    Option.map Transaction.status
      (storeGet (run default_decision_engine defaultProcessorConfig
        [("A", (200:ℚ)), ("B", 50)]
        [Op.initiate "A" "B" 60 none (some PaymentMethod.upi) false "t1",
         Op.settle "t1", Op.settle "t1"]).txs "t1") = some "COMPLETED" := by
  norm_num +decide [run, stepOp, initiatePayment, choosePaymentMethod,
    storeInsert, storeGet, autoProcessTransaction, settlementReasons, accGet,
    accAdd, confirmPayment, defaultProcessorConfig]

/-- C2 (amended): the code has no `AlreadyFinalized` guard —
`confirm_payment` re-applies a terminal status unconditionally and
`auto_process_transaction` re-runs its checks from scratch, so a second
settlement of an already `COMPLETED` transaction whose accounts still
resolve, are distinct, and whose sender balance still covers the amount
completes again and debits/credits both balances a second time. -/
theorem resettle_completed_transaction_runs_again
    (tx : Transaction) (store : TxStore) (accounts : Accounts) (bf bt : ℚ)
    (hstatus : tx.status = "COMPLETED")
    (hf : accGet accounts tx.from_account_id = some bf)
    (ht : accGet accounts tx.to_account_id = some bt)
    (hne : tx.from_account_id ≠ tx.to_account_id)
    (hsuff : tx.amount ≤ bf) :
    (autoProcessTransaction tx store accounts).status = "COMPLETED" ∧
    accGet (autoProcessTransaction tx store accounts).accounts
      tx.from_account_id = some (bf - tx.amount) ∧
    accGet (autoProcessTransaction tx store accounts).accounts
      tx.to_account_id = some (bt + tx.amount) := by
  obtain ⟨h1, h2, h3, h4⟩ :=
    autoProcess_success_spec tx store accounts bf bt hf ht hne hsuff
  refine ⟨h1, ?_, ?_⟩
  · rw [h3, accGet_accAdd_ne _ _ _ _ hne, accGet_accAdd_self, hf]
    simp [sub_eq_add_neg]
  · rw [h3, accGet_accAdd_self, accGet_accAdd_ne _ _ _ _ (Ne.symm hne), ht]
    rfl

theorem resettle_completed_transaction_runs_again_witness :
    (({ transaction_id := "t1", from_account_id := "A", to_account_id := "B",
        amount := 60, currency := "INR", method := PaymentMethod.upi,
        status := "COMPLETED", failure_reason := none } :
        Transaction).status = "COMPLETED") ∧
    accGet [("A", (140:ℚ)), ("B", 110)] "A" = some 140 ∧
    accGet [("A", (140:ℚ)), ("B", 110)] "B" = some 110 ∧
    (("A" : String) ≠ "B") ∧ ((60:ℚ) ≤ 140) ∧
    ((autoProcessTransaction
        { transaction_id := "t1", from_account_id := "A",
          to_account_id := "B", amount := 60, currency := "INR",
          method := PaymentMethod.upi, status := "COMPLETED",
          failure_reason := none }
        [] [("A", (140:ℚ)), ("B", 110)]).status = "COMPLETED" ∧
     accGet (autoProcessTransaction
        { transaction_id := "t1", from_account_id := "A",
          to_account_id := "B", amount := 60, currency := "INR",
          method := PaymentMethod.upi, status := "COMPLETED",
          failure_reason := none }
        [] [("A", (140:ℚ)), ("B", 110)]).accounts "A" = some (140 - 60) ∧
     accGet (autoProcessTransaction
        { transaction_id := "t1", from_account_id := "A",
          to_account_id := "B", amount := 60, currency := "INR",
          method := PaymentMethod.upi, status := "COMPLETED",
          failure_reason := none }
        [] [("A", (140:ℚ)), ("B", 110)]).accounts "B" = some (110 + 60)) :=
  ⟨rfl, by decide, by decide, by decide, by decide,
   resettle_completed_transaction_runs_again _ [] _ 140 110 rfl (by decide)
     (by decide) (by decide) (by decide)⟩

/-- C3: settling a transaction whose sender account resolves but whose
current balance is below the amount marks it `FAILED`, attaches a reason
containing the insufficient-balance message, and leaves the accounts map
untouched. -/
theorem settle_insufficient_balance_fails_without_mutation
    (tx : Transaction) (store : TxStore) (accounts : Accounts) (bf : ℚ)
    (hf : accGet accounts tx.from_account_id = some bf)
    (hlt : bf < tx.amount) :
    (autoProcessTransaction tx store accounts).status = "FAILED" ∧
    (autoProcessTransaction tx store accounts).tx.status = "FAILED" ∧
    (autoProcessTransaction tx store accounts).tx.failure_reason =
      some (String.intercalate "; " (settlementReasons tx accounts)) ∧
    "Insufficient balance in source account." ∈
      settlementReasons tx accounts ∧
    (autoProcessTransaction tx store accounts).accounts = accounts := by
  have hmem : "Insufficient balance in source account." ∈
      settlementReasons tx accounts := by
    simp [settlementReasons, hf, hlt]
  have hne := List.ne_nil_of_mem hmem
  obtain ⟨h1, h2, h3, h4⟩ := autoProcess_fail_spec tx store accounts hne
  exact ⟨h1, by rw [h2], by rw [h2], hmem, h3⟩

theorem settle_insufficient_balance_fails_without_mutation_witness :
    accGet [("A", (50:ℚ)), ("B", 10)] "A" = some 50 ∧ ((50:ℚ) < 100) ∧
    ((autoProcessTransaction
        { transaction_id := "t1", from_account_id := "A",
          to_account_id := "B", amount := 100, currency := "INR",
          method := PaymentMethod.upi, status := "PENDING",
          failure_reason := none }
        [] [("A", (50:ℚ)), ("B", 10)]).status = "FAILED" ∧
     (autoProcessTransaction
        { transaction_id := "t1", from_account_id := "A",
          to_account_id := "B", amount := 100, currency := "INR",
          method := PaymentMethod.upi, status := "PENDING",
          failure_reason := none }
        [] [("A", (50:ℚ)), ("B", 10)]).tx.status = "FAILED" ∧
     (autoProcessTransaction
        { transaction_id := "t1", from_account_id := "A",
          to_account_id := "B", amount := 100, currency := "INR",
          method := PaymentMethod.upi, status := "PENDING",
          failure_reason := none }
        [] [("A", (50:ℚ)), ("B", 10)]).tx.failure_reason =
       some (String.intercalate "; " (settlementReasons
         { transaction_id := "t1", from_account_id := "A",
           to_account_id := "B", amount := 100, currency := "INR",
           method := PaymentMethod.upi, status := "PENDING",
           failure_reason := none }
         [("A", (50:ℚ)), ("B", 10)])) ∧
     "Insufficient balance in source account." ∈
       settlementReasons
         { transaction_id := "t1", from_account_id := "A",
           to_account_id := "B", amount := 100, currency := "INR",
           method := PaymentMethod.upi, status := "PENDING",
           failure_reason := none }
         [("A", (50:ℚ)), ("B", 10)] ∧
     (autoProcessTransaction
        { transaction_id := "t1", from_account_id := "A",
          to_account_id := "B", amount := 100, currency := "INR",
          method := PaymentMethod.upi, status := "PENDING",
          failure_reason := none }
        [] [("A", (50:ℚ)), ("B", 10)]).accounts =
       [("A", (50:ℚ)), ("B", 10)]) :=
  ⟨by decide, by decide,
   settle_insufficient_balance_fails_without_mutation _ [] _ 50 (by decide)
     (by decide)⟩

/-- C4: initiating with a non-positive amount is rejected with the
invalid-amount error before anything else is examined, and leaves the
session state (accounts and transaction store) untouched. -/
theorem initiate_nonpositive_amount_invalid
    (engine : PaymentDecisionEngine) (cfg : PaymentProcessorConfig)
    (f t : String) (amount : ℚ) (currency : Option String)
    (method : Option PaymentMethod) (auto ni : Bool)
    (up : Option PaymentMethod) (idom ac mp : Option Bool)
    (tx_id : String) (store : TxStore) (h : amount ≤ 0) :
    initiatePayment engine cfg f t amount currency method auto ni up idom
      ac mp tx_id store = Except.error InitError.invalidAmount ∧
    (∀ w : World,
      stepOp engine cfg w (Op.initiate f t amount currency method auto tx_id)
        = w) := by
  constructor
  · simp [initiatePayment, h]
  · intro w
    simp [stepOp, initiatePayment, h]

theorem initiate_nonpositive_amount_invalid_witness :
    ((-5 : ℚ) ≤ 0) ∧
    (initiatePayment default_decision_engine defaultProcessorConfig "A" "B"
        (-5) none none true true none none none none "t1" []
      = Except.error InitError.invalidAmount ∧
     (∀ w : World,
       stepOp default_decision_engine defaultProcessorConfig w
         (Op.initiate "A" "B" (-5) none none true "t1") = w)) :=
  ⟨by decide,
   initiate_nonpositive_amount_invalid default_decision_engine
     defaultProcessorConfig "A" "B" (-5) none none true true none none none
     none "t1" [] (by decide)⟩

/-- C5: when the payment's source currency differs from the reference
currency INR, the page handler converts the amount through the FX service
before `initiate_payment` runs; if the rate fetch fails the initiation
aborts with the rate-unavailable error and no transaction is created, and
on success the recorded initiation uses the converted amount
`amount_from * rate`. -/
theorem page_initiate_converts_before_recording
    (engine : PaymentDecisionEngine) (cfg : PaymentProcessorConfig)
    (from_ccy : String) (amount_from : ℚ) (speed_mode : String)
    (use_ai : Bool) (manual_method : Option PaymentMethod) (ni : Bool)
    (from_id to_id tx_id : String) (store : TxStore)
    (hccy : lowerString from_ccy ≠ "inr") (hccy2 : from_ccy ≠ "INR") :
    (∀ msg : String,
      pageInitiatePayment engine cfg from_ccy amount_from (Except.error msg)
        speed_mode use_ai manual_method ni from_id to_id tx_id store =
      Except.error (PageError.fxFailed (FXError.rateUnavailable msg))) ∧
    (∀ (quote : FXQuote) (pr : String × ℚ),
      quote.rates.find? (fun p => p.1 == "inr") = some pr →
      pageInitiatePayment engine cfg from_ccy amount_from (Except.ok quote)
        speed_mode use_ai manual_method ni from_id to_id tx_id store =
      (initiatePayment engine cfg from_id to_id (amount_from * pr.2) none
        (if amount_from * pr.2 ≥ 100000 ∧ speed_mode = "Express" then
          some PaymentMethod.crypto
         else if use_ai then none else manual_method)
        use_ai ni none none none none tx_id store).mapError
        PageError.initFailed) := by
  have hlow : lowerString "INR" = "inr" := by decide
  constructor
  · intro msg
    simp [pageInitiatePayment, convert, getRate, hlow, hccy, hccy2,
      Except.map]
  · intro quote pr hfind
    simp only [pageInitiatePayment, convert, getRate, hlow, hccy, hccy2,
      hfind, Except.map, ne_eq, not_false_eq_true, if_neg]
    cases h2 : initiatePayment engine cfg from_id to_id (amount_from * pr.2)
        none
        (if amount_from * pr.2 ≥ 100000 ∧ speed_mode = "Express" then
          some PaymentMethod.crypto
         else if use_ai then none else manual_method)
        use_ai ni none none none none tx_id store with
    | error e => simp [h2, Except.mapError, Except.map]
    | ok r => simp [h2, Except.mapError, Except.map]

theorem page_initiate_converts_before_recording_witness :
    lowerString "USD" ≠ "inr" ∧ ("USD" : String) ≠ "INR" ∧
    pageInitiatePayment default_decision_engine defaultProcessorConfig "USD"
        10 (Except.error "down") "Standard" false (some PaymentMethod.card)
        false "A" "B" "t1" []
      = Except.error (PageError.fxFailed (FXError.rateUnavailable "down")) ∧
    pageInitiatePayment default_decision_engine defaultProcessorConfig "USD"
        10 (Except.ok { base := "usd", date := "latest",
                        rates := [("inr", 83)] })
        "Standard" false (some PaymentMethod.card) false "A" "B" "t1" []
      = (initiatePayment default_decision_engine defaultProcessorConfig "A"
          "B" (10 * (("inr", (83:ℚ))).2) none
          (if (10:ℚ) * (("inr", (83:ℚ))).2 ≥ 100000 ∧
              ("Standard" : String) = "Express" then
            some PaymentMethod.crypto
           else if (false : Bool) then none else some PaymentMethod.card)
          false false none none none none "t1" []).mapError
          PageError.initFailed :=
  ⟨by decide, by decide,
   (page_initiate_converts_before_recording default_decision_engine
     defaultProcessorConfig "USD" 10 "Standard" false
     (some PaymentMethod.card) false "A" "B" "t1" [] (by decide)
     (by decide)).1 "down",
   (page_initiate_converts_before_recording default_decision_engine
     defaultProcessorConfig "USD" 10 "Standard" false
     (some PaymentMethod.card) false "A" "B" "t1" [] (by decide)
     (by decide)).2
     { base := "usd", date := "latest", rates := [("inr", 83)] }
     ("inr", 83) (by decide)⟩

/-- C6 (counterexample): a freshly initiated stored transaction has status
`"PENDING"`, which is not among `INITIATED`, `COMPLETED`, `FAILED` as the
claim states. -/
theorem initiated_status_is_pending_cex :
    Option.map Transaction.status
      (storeGet (run default_decision_engine defaultProcessorConfig
        [("A", (1000:ℚ)), ("B", 500)]
        [Op.initiate "A" "B" 100 none (some PaymentMethod.upi) false
          "t1"]).txs "t1") = some "PENDING" ∧
    "PENDING" ∉ (["INITIATED", "COMPLETED", "FAILED"] : List String) := by
  constructor
  · norm_num +decide [run, stepOp, initiatePayment, storeInsert, storeGet,
      defaultProcessorConfig]
  · decide

/-- C6 (amended): every transaction record stored by the orchestrator has,
at every point of its initiate/settle lifecycle, a status among `PENDING`,
`COMPLETED`, `FAILED` (the code writes `PENDING`, not `INITIATED`, at
initiation), and carries a `failure_reason` only when the status is
`FAILED`. -/
theorem stored_transactions_satisfy_status_invariant
    (engine : PaymentDecisionEngine) (cfg : PaymentProcessorConfig)
    (accounts0 : Accounts) (ops : List Op) :
    ∀ tx ∈ txValues (run engine cfg accounts0 ops).txs,
      txStatusInvariant tx = true :=
  run_preserves_invariant engine cfg accounts0 ops

theorem stored_transactions_satisfy_status_invariant_witness :
    ({ transaction_id := "t1", from_account_id := "A",
       to_account_id := "B", amount := 100, currency := "INR",
       method := PaymentMethod.upi, status := "PENDING",
       failure_reason := none } : Transaction)
      ∈ txValues (run default_decision_engine defaultProcessorConfig
          [("A", (1000:ℚ)), ("B", 500)]
          [Op.initiate "A" "B" 100 none (some PaymentMethod.upi) false
            "t1"]).txs ∧
    txStatusInvariant
      { transaction_id := "t1", from_account_id := "A",
        to_account_id := "B", amount := 100, currency := "INR",
        method := PaymentMethod.upi, status := "PENDING",
        failure_reason := none } = true :=
  ⟨by decide,
   stored_transactions_satisfy_status_invariant default_decision_engine
     defaultProcessorConfig [("A", (1000:ℚ)), ("B", 500)]
     [Op.initiate "A" "B" 100 none (some PaymentMethod.upi) false "t1"]
     { transaction_id := "t1", from_account_id := "A",
       to_account_id := "B", amount := 100, currency := "INR",
       method := PaymentMethod.upi, status := "PENDING",
       failure_reason := none }
     (by decide)⟩

/-- C7: when no catalog rail is eligible for the context, `recommend`
returns the `BANK_TRANSFER` fallback instead of failing (the embedding is a
total function, so routing always produces a rail). -/
theorem recommend_falls_back_to_bank_transfer
    (options : List PaymentOption) (ctx : PaymentContext)
    (h : ∀ opt ∈ options, isOptionEligible opt ctx = false) :
    recommend { options := options } ctx = PaymentMethod.bank_transfer := by
  have hnil : options.filter (fun o => isOptionEligible o ctx) = [] := by
    rw [List.filter_eq_nil_iff]
    intro a ha
    simp [h a ha]
  simp [recommend, hnil, argmaxByKey]

theorem recommend_falls_back_to_bank_transfer_witness :
    (∀ opt ∈ [(⟨PaymentMethod.crypto, 100, none, false, true, (5/10), 30,
        (7/10), true⟩ : PaymentOption)],
      isOptionEligible opt { amount := 500 } = false) ∧
    recommend
      { options := [⟨PaymentMethod.crypto, 100, none, false, true, (5/10),
          30, (7/10), true⟩] }
      { amount := 500 } = PaymentMethod.bank_transfer :=
  ⟨by decide,
   recommend_falls_back_to_bank_transfer
     [⟨PaymentMethod.crypto, 100, none, false, true, (5/10), 30, (7/10),
       true⟩]
     { amount := 500 } (by decide)⟩

/-- C8: on the default catalog, for a domestic instant INR context of
amount 100 with crypto disallowed, merchant preferring low fees and no user
preference (the `PaymentContext` defaults), `recommend` returns UPI, and
UPI's weighted-sum score is maximal among the eligible rails. -/
theorem default_engine_recommends_upi_at_100 :
    recommend default_decision_engine { amount := 100 } =
      PaymentMethod.upi ∧
    ((default_decision_engine.options.filter
        (fun o => isOptionEligible o { amount := 100 })).all
      (fun o => decide (scoreOption o { amount := 100 } ≤
        scoreOption
          { method := PaymentMethod.upi
            min_amount := 1
            max_amount := some 200000
            avg_settlement_minutes := 1
            reliability_score := (95/100) }
          { amount := 100 }))) = true := by
  constructor
  · simp +decide [recommend, argmaxByKey, default_decision_engine,
      isOptionEligible, scoreOption, List.filter, List.foldl]
    norm_num
  · simp +decide [default_decision_engine, isOptionEligible, scoreOption,
      List.filter, List.all]
    norm_num

/-- C9 (counterexample): the two failure modes of `Account.withdraw` — a
non-positive amount and an amount above the balance — return the identical
value `(False, unchanged balance)`: the code does not distinguish an
`InvalidAmount` failure from an `InsufficientFunds` failure as the claim
states. -/
theorem withdraw_failures_share_one_result_cex :
    Account.withdraw (-1) 100 = (false, 100) ∧
    Account.withdraw 200 100 = (false, 100) := by
  constructor <;> norm_num [Account.withdraw]

/-- C9 (amended): `Account.withdraw` signals failure by returning `False` —
without distinguishing insufficient funds from an invalid amount — whenever
the amount is non-positive or exceeds the balance, leaving the balance
unchanged; otherwise it returns `True` and reduces the balance by exactly
the amount. -/
theorem withdraw_behavior (amount balance : ℚ) :
    (amount ≤ 0 ∨ balance < amount →
      Account.withdraw amount balance = (false, balance)) ∧
    (0 < amount → amount ≤ balance →
      Account.withdraw amount balance = (true, balance - amount)) := by
  constructor
  · intro h
    rcases h with h | h
    · simp [Account.withdraw, not_lt.mpr h]
    · have : ¬ (0 < amount ∧ amount ≤ balance) := by
        rintro ⟨h1, h2⟩
        exact absurd h (not_lt.mpr h2)
      simp [Account.withdraw, this]
  · intro h1 h2
    simp [Account.withdraw, h1, h2]

theorem withdraw_behavior_witness :
    ((0:ℚ) < 30) ∧ ((30:ℚ) ≤ 100) ∧
    Account.withdraw 30 100 = (true, 100 - 30) ∧
    (((200:ℚ) ≤ 0) ∨ (100:ℚ) < 200) ∧
    Account.withdraw 200 100 = (false, 100) :=
  ⟨by decide, by decide,
   (withdraw_behavior 30 100).2 (by decide) (by decide),
   Or.inr (by decide),
   (withdraw_behavior 200 100).1 (Or.inr (by decide))⟩

/-- C10: `confirm_payment` called with an unknown transaction id string
returns `False` and leaves the store untouched, while called with any
transaction dict it returns `True` and overwrites that dict's status
unconditionally. -/
theorem confirm_payment_id_miss_vs_dict :
    (∀ (store : TxStore) (tx_id : String) (mark_failed : Bool),
      storeGet store tx_id = none →
      confirmPayment store (TxRef.byId tx_id) mark_failed =
        (false, store, none)) ∧
    (∀ (store : TxStore) (tx : Transaction) (mark_failed : Bool),
      (confirmPayment store (TxRef.byDict tx) mark_failed).1 = true ∧
      (confirmPayment store (TxRef.byDict tx) mark_failed).2.2 =
        some { tx with
                 status := if mark_failed then "FAILED"
                           else "COMPLETED" }) := by
  constructor
  · intro store tx_id mark_failed h
    simp [confirmPayment, h]
  · intro store tx mark_failed
    constructor <;> simp [confirmPayment]

theorem confirm_payment_id_miss_vs_dict_witness :
    storeGet [] "missing" = none ∧
    confirmPayment [] (TxRef.byId "missing") false = (false, [], none) ∧
    ((confirmPayment []
        (TxRef.byDict
          { transaction_id := "t9", from_account_id := "A",
            to_account_id := "B", amount := 5, currency := "INR",
            method := PaymentMethod.card, status := "PENDING",
            failure_reason := none }) true).1 = true ∧
     (confirmPayment []
        (TxRef.byDict
          { transaction_id := "t9", from_account_id := "A",
            to_account_id := "B", amount := 5, currency := "INR",
            method := PaymentMethod.card, status := "PENDING",
            failure_reason := none }) true).2.2 =
       some { ({ transaction_id := "t9", from_account_id := "A",
                 to_account_id := "B", amount := 5, currency := "INR",
                 method := PaymentMethod.card, status := "PENDING",
                 failure_reason := none } : Transaction) with
                status := if (true : Bool) then "FAILED"
                          else "COMPLETED" }) :=
  ⟨rfl,
   confirm_payment_id_miss_vs_dict.1 [] "missing" false rfl,
   confirm_payment_id_miss_vs_dict.2 []
     { transaction_id := "t9", from_account_id := "A",
       to_account_id := "B", amount := 5, currency := "INR",
       method := PaymentMethod.card, status := "PENDING",
       failure_reason := none } true⟩

end UnifiedPay
